import Mathlib

/-!
Shallow embedding of the vector-database dual-store orchestration layer
(`src/aws/vector-database/application/src/vector_service.py` and
`src/aws/vector-database/application/src/api_handler.py`).

Modelling conventions:
- Python `float` values (embedding components, similarity scores) are opaque
  to the orchestrator — it performs no arithmetic on them, only carries and
  compares them — so they are modelled by `Int`.
- JSON metadata values (`Dict[str, Any]`) are likewise opaque; a metadata
  mapping is modelled as a Python dict over `String` keys and `String`
  values: an association list with unique keys, first-match lookup,
  in-place value replacement on existing keys, append on fresh keys
  (Python's insertion-order dict semantics).
- The two backing stores (OpenSearch index, PostgreSQL metadata table) are
  modelled as explicit association-list states keyed by id; each repository
  call takes a fault flag saying whether the underlying client raises
  (the `except Exception` paths in the Python return `False` / `None` / `[]`).
-/

namespace VecDb

/-- A JSON-compatible metadata value, opaque to the orchestrator. -/
abbrev Val := String

/-- A Python dict `str -> value` as an insertion-ordered association list. -/
abbrev Dict := List (String × Val)

/-- First-match association-list lookup: `d[k]` / `d.get(k)`. The same
shape serves the metadata dicts and both keyed backing stores. -/
def mlookup {α : Type} : List (String × α) → String → Option α
  | [], _ => none
  | (k', v) :: rest, k => if k' = k then some v else mlookup rest k

/-- Keyed insert-or-replace `d[k] = v`: replace the value at the first
occurrence of `k` in place, or append `(k, v)` if `k` is absent. This is
Python dict assignment and also both stores' upsert-by-id. -/
def setKey {α : Type} : List (String × α) → String → α → List (String × α)
  | [], k, v => [(k, v)]
  | (k', v') :: rest, k, v =>
      if k' = k then (k', v) :: rest else (k', v') :: setKey rest k v

/-- Python `d1.update(d2)`: assign every entry of `d2` into `d1` in order. -/
def dictUpdate (d1 d2 : Dict) : Dict :=
  d2.foldl (fun acc kv => setKey acc kv.1 kv.2) d1

/-- `VectorData` (pydantic model, vector_service.py lines 23-27): id, vector
embedding, metadata. pydantic places no constraint on `id` or `vector`
beyond their types: the empty string and the empty list are accepted. -/
structure VectorData where
  id : String
  vector : List Int
  metadata : Dict
deriving DecidableEq, Repr

/-- `SearchResult` (vector_service.py lines 30-34). -/
structure SearchResult where
  id : String
  score : Int
  metadata : Dict
deriving DecidableEq, Repr

/-- `SearchQuery` (vector_service.py lines 37-40): `k` carries pydantic
bounds `ge=1, le=100`, default 10; `vector` has no emptiness constraint. -/
structure SearchQuery where
  vector : List Int
  k : Int
deriving DecidableEq, Repr

/-- pydantic construction `SearchQuery(vector=v, k=k)`: returns the model
when the field bounds `1 <= k <= 100` hold, raises `ValidationError`
(modelled `none`) otherwise. The vector field is unconstrained. -/
def mkSearchQuery (v : List Int) (k : Int) : Option SearchQuery :=
  if 1 ≤ k ∧ k ≤ 100 then some ⟨v, k⟩ else none

/-- One OpenSearch index document: the body written by
`OpenSearchVectorRepository.store_vector` (`{'vector': ..., 'metadata': ...}`). -/
abbrev IndexDoc := List Int × Dict

/-- The OpenSearch `vectors` index: one document per id. -/
abbrev IndexStore := List (String × IndexDoc)

/-- The PostgreSQL `vector_metadata` table as read by the application:
one `metadata` value per id. (`created_at` / `updated_at` are wall-clock
columns never read by the application and are outside this model.) -/
abbrev MetaStore := List (String × Dict)

/-- `OpenSearchVectorRepository.store_vector` (lines 126-141): index the
document under `vector_data.id` (OpenSearch `client.index` replaces any
prior document with that id) and return `True`; on a raised exception
(`fail = true`) the state is unchanged and `False` is returned. -/
def osStoreVector (fail : Bool) (st : IndexStore) (vd : VectorData) :
    Bool × IndexStore :=
  if fail then (false, st)
  else (true, setKey st vd.id (vd.vector, vd.metadata))

/-- `MetadataRepository.store_metadata` (lines 235-252): upsert the row
(`INSERT ... ON CONFLICT (id) DO UPDATE SET metadata = EXCLUDED.metadata`)
and return `True`; on a raised exception the table is unchanged and `False`
is returned. -/
def pgStoreMetadata (fail : Bool) (st : MetaStore) (i : String) (m : Dict) :
    Bool × MetaStore :=
  if fail then (false, st)
  else (true, setKey st i m)

/-- `OpenSearchVectorRepository.get_vector` (lines 174-186): fetch the
document by id and rebuild a `VectorData`; a raised exception (including
the 404 raised for a missing id) returns `None`. -/
def osGetVector (fail : Bool) (st : IndexStore) (i : String) :
    Option VectorData :=
  if fail then none
  else
    match mlookup st i with
    | some (v, m) => some ⟨i, v, m⟩
    | none => none

/-- `MetadataRepository.get_metadata` (lines 254-268): `SELECT metadata ...
WHERE id = %s`, then `json.loads(result[0])` on the fetched row. psycopg2
(since 2.5.4) returns a `JSONB` column already parsed into a Python dict,
so `json.loads` is handed a dict, raises `TypeError`, and the surrounding
`except Exception` returns `None` — on every found row, not only on
connection failure. A missing row returns `None` directly. The function
therefore yields `None` on every path. -/
def pgGetMetadata (fail : Bool) (st : MetaStore) (i : String) : Option Dict :=
  if fail then none
  else
    match mlookup st i with
    | some _ => none
    | none => none

/-- One hit of the OpenSearch search response (`response['hits']['hits']`):
`_id`, `_score`, and the stored `_source`, whose `metadata` field may be
absent (`hit['_source'].get('metadata', {})`). -/
structure OSHit where
  id : String
  score : Int
  sourceMetadata : Option Dict
deriving DecidableEq, Repr

/-- `OpenSearchVectorRepository.search_vectors` (lines 143-172): ask the
index for `size = k` hits (`hits` is the port's response, already at most
`k` long and ordered by the store), convert each hit to a `SearchResult` in
response order; any raised exception returns `[]`. -/
def osSearchVectors (fail : Bool) (hits : List OSHit) (_q : SearchQuery) :
    List SearchResult :=
  if fail then []
  else hits.map fun h => ⟨h.id, h.score, h.sourceMetadata.getD []⟩

/-- The joint state of the two backing stores behind a `VectorService`. -/
structure DualState where
  index : IndexStore
  meta : MetaStore
deriving DecidableEq, Repr

/-- `VectorService.store_vector` (lines 279-290): store the vector in
OpenSearch, store the metadata in PostgreSQL — both calls are made
unconditionally — and return `vector_success and metadata_success`. -/
def storeVector (failIdx failMeta : Bool) (s : DualState) (vd : VectorData) :
    Bool × DualState :=
  let vres := osStoreVector failIdx s.index vd
  let mres := pgStoreMetadata failMeta s.meta vd.id vd.metadata
  (vres.1 && mres.1, ⟨vres.2, mres.2⟩)

/-- `VectorService.search_vectors` (lines 292-294): delegate to the
OpenSearch repository unchanged. -/
def serviceSearchVectors (fail : Bool) (hits : List OSHit) (q : SearchQuery) :
    List SearchResult :=
  osSearchVectors fail hits q

/-- `VectorService.get_vector` (lines 296-304): fetch the vector from
OpenSearch; if found, fetch metadata from PostgreSQL and, when that yields
a truthy (non-empty) dict, overlay it onto the record's metadata with
`vector_data.metadata.update(additional_metadata)`. -/
def getVector (failIdx failMeta : Bool) (s : DualState) (i : String) :
    Option VectorData :=
  match osGetVector failIdx s.index i with
  | none => none
  | some vd =>
      match pgGetMetadata failMeta s.meta i with
      | some add =>
          if add = [] then some vd
          else some { vd with metadata := dictUpdate vd.metadata add }
      | none => some vd

/-- The JSON body of an API response (api_handler.py `_create_response`;
the fixed CORS header set is constant and omitted). -/
inductive RespBody where
  | error (msg : String)
  | stored (i : String)
  | results (rs : List SearchResult)
deriving DecidableEq, Repr

/-- A transport response: HTTP status code and JSON body. -/
structure Response where
  statusCode : Nat
  body : RespBody
deriving DecidableEq, Repr

/-- The parsed POST body: which of the `id`, `vector`, `metadata` keys are
present, and the value each carries. -/
structure PostBody where
  id : Option String
  vector : Option (List Int)
  metadata : Option Dict
deriving DecidableEq, Repr

/-- `APIHandler._handle_post_request` (api_handler.py lines 45-90): a body
that fails `json.loads` (`none`) gives 400; a body missing `id` or `vector`
gives 400 with no store touched; otherwise build the `VectorData` (metadata
defaulting to `{}`) and call `VectorService.store_vector`, answering 200 on
success and 500 on failure. Returns the response and the store state. -/
def handlePost (failIdx failMeta : Bool) (s : DualState)
    (body : Option PostBody) : Response × DualState :=
  match body with
  | none => (⟨400, .error "Invalid JSON in request body"⟩, s)
  | some b =>
      match b.id, b.vector with
      | some i, some v =>
          let vd : VectorData := ⟨i, v, b.metadata.getD []⟩
          let res := storeVector failIdx failMeta s vd
          if res.1 then (⟨200, .stored vd.id⟩, res.2)
          else (⟨500, .error "Failed to store vector"⟩, res.2)
      | _, _ => (⟨400, .error "Missing required fields: id and vector"⟩, s)

/-- The GET query string: whether `vector` is present and parses as JSON
(`some none` = present but `json.loads` raises), and whether `k` is present
and parses as an integer (`some none` = present but `int(...)` raises). -/
structure GetParams where
  vector : Option (Option (List Int))
  k : Option (Option Int)
deriving DecidableEq, Repr

/-- The body of `APIHandler._handle_get_request` once `query_params` is a
dict (api_handler.py lines 97-131): missing `vector` gives 400; a `vector`
that fails `json.loads` or a `k` that fails `int(...)` gives 400; an absent
`k` defaults to 10; `SearchQuery(vector=..., k=...)` raising pydantic's
`ValidationError` falls through to the outer `except Exception` and gives
500; otherwise search and answer 200 with the (possibly empty) results. -/
def handleGetParams (failSearch : Bool) (hits : List OSHit) (p : GetParams) :
    Response :=
  match p.vector with
  | none => ⟨400, .error "Missing required parameter: vector"⟩
  | some none => ⟨400, .error "Invalid vector format or k parameter"⟩
  | some (some v) =>
      match p.k with
      | some none => ⟨400, .error "Invalid vector format or k parameter"⟩
      | some (some n) =>
          match mkSearchQuery v n with
          | none => ⟨500, .error "Internal server error"⟩
          | some q => ⟨200, .results (serviceSearchVectors failSearch hits q)⟩
      | none =>
          match mkSearchQuery v 10 with
          | none => ⟨500, .error "Internal server error"⟩
          | some q => ⟨200, .results (serviceSearchVectors failSearch hits q)⟩

/-- `APIHandler._handle_get_request` from the event (api_handler.py lines
92-138). `eventQSP` models `event['queryStringParameters']`: `none` when the
key is absent, `some none` when it is present holding JSON null (Python
`None`), `some (some p)` when it holds a dict. The code runs
`event.get('queryStringParameters', {})`, so an absent key becomes the empty
dict; but when the stored value is `None`, the membership test
`'vector' not in query_params` raises `TypeError`, which the surrounding
`except Exception` turns into a 500 response. -/
def handleGetRequest (failSearch : Bool) (hits : List OSHit)
    (eventQSP : Option (Option GetParams)) : Response :=
  match eventQSP.getD (some ⟨none, none⟩) with
  | none => ⟨500, .error "Internal server error"⟩
  | some p => handleGetParams failSearch hits p

/-! Lemmas about the dict / store primitives. -/

theorem mlookup_setKey_self {α : Type} (d : List (String × α)) (k : String)
    (v : α) :
    mlookup (setKey d k v) k = some v := by
  induction d with
  | nil => simp [setKey, mlookup]
  | cons hd tl ih =>
      obtain ⟨k', v'⟩ := hd
      by_cases h : k' = k
      · simp [setKey, h, mlookup]
      · simp [setKey, h, mlookup, ih]

theorem mlookup_setKey_ne {α : Type} (d : List (String × α)) (k k' : String)
    (v : α) (h : k' ≠ k) :
    mlookup (setKey d k v) k' = mlookup d k' := by
  induction d with
  | nil => simp [setKey, mlookup, Ne.symm h]
  | cons hd tl ih =>
      obtain ⟨k0, v0⟩ := hd
      by_cases h0 : k0 = k
      · subst h0
        simp [setKey, mlookup, Ne.symm h]
      · simp [setKey, h0, mlookup, ih]

theorem setKey_of_mlookup {α : Type} (d : List (String × α)) (k : String)
    (v : α) (h : mlookup d k = some v) : setKey d k v = d := by
  induction d with
  | nil => simp [mlookup] at h
  | cons hd tl ih =>
      obtain ⟨k0, v0⟩ := hd
      by_cases h0 : k0 = k
      · subst h0
        simp [mlookup] at h
        simp [setKey, h]
      · simp [mlookup, h0] at h
        simp [setKey, h0, ih h]

theorem setKey_setKey_self {α : Type} (d : List (String × α)) (k : String)
    (v : α) : setKey (setKey d k v) k v = setKey d k v :=
  setKey_of_mlookup _ _ _ (mlookup_setKey_self d k v)

theorem mlookup_of_mem_nodup {α : Type} (d : List (String × α)) (k : String)
    (v : α) (hnd : (d.map Prod.fst).Nodup) (hmem : (k, v) ∈ d) :
    mlookup d k = some v := by
  induction d with
  | nil => simp at hmem
  | cons hd tl ih =>
      obtain ⟨k0, v0⟩ := hd
      simp only [List.map_cons, List.nodup_cons] at hnd
      rcases List.mem_cons.mp hmem with h | h
      · obtain ⟨rfl, rfl⟩ := Prod.mk.injEq .. ▸ h
        simp [mlookup]
      · have hk0 : k0 ≠ k := by
          rintro rfl
          exact hnd.1 (List.mem_map.mpr ⟨(k0, v), h, rfl⟩)
        simp [mlookup, hk0, ih hnd.2 h]

theorem mem_of_mlookup {α : Type} (d : List (String × α)) (k : String)
    (v : α) (h : mlookup d k = some v) : (k, v) ∈ d := by
  induction d with
  | nil => simp [mlookup] at h
  | cons hd tl ih =>
      obtain ⟨k0, v0⟩ := hd
      by_cases h0 : k0 = k
      · subst h0
        simp [mlookup] at h
        subst h
        exact List.mem_cons_self _ _
      · simp only [mlookup, if_neg h0] at h
        exact List.mem_cons_of_mem _ (ih h)

theorem dictUpdate_nil (d : Dict) : dictUpdate d [] = d := rfl

theorem dictUpdate_cons (d1 : Dict) (k : String) (v : Val) (t : Dict) :
    dictUpdate d1 ((k, v) :: t) = dictUpdate (setKey d1 k v) t := rfl

theorem mlookup_dictUpdate_of_none (d1 d2 : Dict) (k : String)
    (h : mlookup d2 k = none) :
    mlookup (dictUpdate d1 d2) k = mlookup d1 k := by
  induction d2 generalizing d1 with
  | nil => rfl
  | cons hd tl ih =>
      obtain ⟨k0, v0⟩ := hd
      by_cases h0 : k0 = k
      · simp [mlookup, h0] at h
      · simp only [mlookup, h0, if_neg h0] at h
        rw [dictUpdate_cons, ih _ h, mlookup_setKey_ne _ _ _ _ (fun hh => h0 hh.symm)]

theorem mlookup_dictUpdate_of_some (d1 d2 : Dict) (k : String) (v : Val)
    (hnd : (d2.map Prod.fst).Nodup) (h : mlookup d2 k = some v) :
    mlookup (dictUpdate d1 d2) k = some v := by
  induction d2 generalizing d1 with
  | nil => simp [mlookup] at h
  | cons hd tl ih =>
      obtain ⟨k0, v0⟩ := hd
      simp only [List.map_cons, List.nodup_cons] at hnd
      by_cases h0 : k0 = k
      · subst h0
        simp [mlookup] at h
        subst h
        have htl : mlookup tl k0 = none := by
          cases hh : mlookup tl k0 with
          | none => rfl
          | some w =>
              exact absurd
                (List.mem_map.mpr ⟨(k0, w), mem_of_mlookup tl k0 w hh, rfl⟩)
                hnd.1
        rw [dictUpdate_cons, mlookup_dictUpdate_of_none _ _ _ htl,
          mlookup_setKey_self]
      · simp only [mlookup, if_neg h0] at h
        rw [dictUpdate_cons]
        exact ih _ hnd.2 h

theorem dictUpdate_self (d : Dict) (hnd : (d.map Prod.fst).Nodup) :
    dictUpdate d d = d := by
  have haux : ∀ (l d' : Dict), (∀ p ∈ l, mlookup d' p.1 = some p.2) →
      l.foldl (fun acc kv => setKey acc kv.1 kv.2) d' = d' := by
    intro l
    induction l with
    | nil => intro d' _; rfl
    | cons hd tl ih =>
        intro d' hall
        have h1 := hall hd (List.mem_cons_self _ _)
        rw [List.foldl_cons, setKey_of_mlookup _ _ _ h1]
        exact ih d' fun p hp => hall p (List.mem_cons_of_mem _ hp)
  exact haux d d fun p hp => mlookup_of_mem_nodup d p.1 p.2 hnd hp

/-! Claim theorems. -/

/-- C1: the claim (and the spec, and the repository's own test
`test_store_vector_failure`) says that when the index-store upsert fails the
metadata upsert is not attempted, so the metadata store gains no entry. The
code contradicts this: `VectorService.store_vector` calls
`store_metadata` unconditionally. At the failing input — record
`{id: "v1", vector: [1], metadata: {"title": "Doc"}}`, OpenSearch upsert
raising, PostgreSQL healthy, both stores initially empty — the call returns
failure yet leaves an orphaned metadata entry for `"v1"`. -/
theorem c1_orphaned_metadata_on_index_failure :
    (storeVector true false ⟨[], []⟩ ⟨"v1", [1], [("title", "Doc")]⟩).1 = false
    ∧ mlookup (storeVector true false ⟨[], []⟩
        ⟨"v1", [1], [("title", "Doc")]⟩).2.meta "v1" = some [("title", "Doc")]
    ∧ mlookup ([] : MetaStore) "v1" = none :=
  ⟨rfl, rfl, rfl⟩

/-- C2: `store_vector` returns success exactly when both the index upsert
and the metadata upsert succeeded, and a succeeded index upsert is never
rolled back — whatever happened at the metadata store, the index holds the
new document. -/
theorem c2_store_success_iff (fi fm : Bool) (s : DualState) (vd : VectorData) :
    ((storeVector fi fm s vd).1 = true ↔ fi = false ∧ fm = false)
    ∧ (fi = false →
        mlookup (storeVector fi fm s vd).2.index vd.id
          = some (vd.vector, vd.metadata)) := by
  constructor
  · cases fi <;> cases fm <;>
      simp [storeVector, osStoreVector, pgStoreMetadata]
  · intro hfi
    subst hfi
    cases fm <;>
      simp [storeVector, osStoreVector, pgStoreMetadata, mlookup_setKey_self]

/-- Witness for C2 at a concrete input with a failing metadata upsert. -/
theorem c2_store_success_iff_witness :
    (((storeVector false true ⟨[], []⟩ ⟨"v1", [1], []⟩).1 = true
        ↔ false = false ∧ true = false)
      ∧ (false = false →
          mlookup (storeVector false true ⟨[], []⟩ ⟨"v1", [1], []⟩).2.index "v1"
            = some ([1], []))) :=
  c2_store_success_iff false true ⟨[], []⟩ ⟨"v1", [1], []⟩

/-- C8: storing the same record twice leaves both backing stores in the same
state as storing it once, because both port upserts replace the prior entry
for the id (shown here for any combination of per-port fault flags, the
fault-free case included; the wall-clock `updated_at` column, which the
application never reads, is outside the model). -/
theorem c8_store_idempotent (fi fm : Bool) (s : DualState) (vd : VectorData) :
    (storeVector fi fm (storeVector fi fm s vd).2 vd).2
      = (storeVector fi fm s vd).2 := by
  cases fi <;> cases fm <;>
    simp [storeVector, osStoreVector, pgStoreMetadata, setKey_setKey_self]

/-- C3 counterexample: the claim says a record with empty id or empty
embedding is rejected with InvalidInput before any store mutation. The code
has no such check — neither the pydantic model nor the POST handler
constrains emptiness — so the request `{id: "", vector: []}` is accepted:
the handler answers 200 and both stores gain an entry keyed by `""`. -/
theorem c3_empty_id_and_vector_accepted :
    (handlePost false false ⟨[], []⟩ (some ⟨some "", some [], none⟩)).1.statusCode
        = 200
    ∧ mlookup (handlePost false false ⟨[], []⟩
        (some ⟨some "", some [], none⟩)).2.index "" = some ([], [])
    ∧ mlookup (handlePost false false ⟨[], []⟩
        (some ⟨some "", some [], none⟩)).2.meta "" = some [] :=
  ⟨rfl, rfl, rfl⟩

/-- C3 amended: the store path rejects with InvalidInput (400), touching
neither backing store, exactly when the request body lacks the `id` or
`vector` key; presence is all that is checked — an empty-string id or an
empty embedding passes validation and the mutation is attempted. -/
theorem c3_missing_fields_rejected (fi fm : Bool) (s : DualState)
    (b : PostBody) (h : b.id = none ∨ b.vector = none) :
    (handlePost fi fm s (some b)).1.statusCode = 400
    ∧ (handlePost fi fm s (some b)).2 = s := by
  obtain ⟨bi, bv, bm⟩ := b
  rcases h with h | h
  · subst h
    cases bv <;> simp [handlePost]
  · subst h
    cases bi <;> simp [handlePost]

/-- Witness for the amended C3: a body carrying a vector but no id is
rejected with 400 and the stores are untouched. -/
theorem c3_missing_fields_rejected_witness :
    (none = (none : Option String) ∨ some [1] = (none : Option (List Int)))
    ∧ ((handlePost false false ⟨[], []⟩
          (some ⟨none, some [1], none⟩)).1.statusCode = 400
        ∧ (handlePost false false ⟨[], []⟩
            (some ⟨none, some [1], none⟩)).2 = ⟨[], []⟩) :=
  ⟨Or.inl rfl,
    c3_missing_fields_rejected false false ⟨[], []⟩ ⟨none, some [1], none⟩
      (Or.inl rfl)⟩

/-- C10: a GET event whose `queryStringParameters` key holds JSON null (as
API Gateway sends when no query string is present) makes the membership
test `'vector' not in query_params` raise, so the handler answers 500, not
400; only an event omitting the key entirely gets the 400
missing-parameter response. -/
theorem c10_null_query_params_500 (fs : Bool) (hits : List OSHit) :
    handleGetRequest fs hits (some none)
        = ⟨500, .error "Internal server error"⟩
    ∧ handleGetRequest fs hits none
        = ⟨400, .error "Missing required parameter: vector"⟩ :=
  ⟨rfl, rfl⟩

/-- C4 counterexample: the claim says validation fails with InvalidInput
when the embedding is empty, and that out-of-range `k` is rejected with
InvalidInput. In the code the pydantic `SearchQuery` accepts an empty
vector, and an out-of-range `k` raises a `ValidationError` that the handler
surfaces as a 500 InternalError, not a 400 InvalidInput. -/
theorem c4_empty_vector_accepted_and_bad_k_500 :
    (mkSearchQuery [] 10).isSome = true
    ∧ handleGetRequest false [] (some (some ⟨some (some []), some (some 0)⟩))
        = ⟨500, .error "Internal server error"⟩ :=
  ⟨rfl, rfl⟩

/-- C4 amended: `SearchQuery` validation succeeds exactly when `k` lies in
`[1, 100]` — so `k = 0` and `k = 101` are rejected (not clamped) and `k = 1`
and `k = 100` succeed — but the embedding is unconstrained (an empty
embedding passes), and an out-of-range `k` is surfaced by the GET handler as
a 500 InternalError rather than a 400 InvalidInput. -/
theorem c4_k_bounds (v : List Int) (k : Int) (fs : Bool) (hits : List OSHit) :
    ((mkSearchQuery v k).isSome = true ↔ 1 ≤ k ∧ k ≤ 100)
    ∧ (¬(1 ≤ k ∧ k ≤ 100) →
        handleGetRequest fs hits (some (some ⟨some (some v), some (some k)⟩))
          = ⟨500, .error "Internal server error"⟩) := by
  constructor
  · by_cases hk : 1 ≤ k ∧ k ≤ 100 <;> simp [mkSearchQuery, hk]
  · intro hk
    simp [handleGetRequest, handleGetParams, mkSearchQuery, hk]

/-- Witness for the amended C4 at `k = 101` with an empty embedding. -/
theorem c4_k_bounds_witness :
    (((mkSearchQuery [] 101).isSome = true ↔ 1 ≤ (101 : Int) ∧ (101 : Int) ≤ 100)
      ∧ (¬(1 ≤ (101 : Int) ∧ (101 : Int) ≤ 100) →
          handleGetRequest false [] (some (some ⟨some (some []), some (some 101)⟩))
            = ⟨500, .error "Internal server error"⟩)) :=
  c4_k_bounds [] 101 false []

/-- C5: with the index-store search call failing, a well-formed search
request is answered with status 200 and an empty result list — the failure
is not propagated to the caller. -/
theorem c5_search_failure_empty_ok (hits : List OSHit) (v : List Int)
    (k : Int) (hk : 1 ≤ k ∧ k ≤ 100) :
    handleGetRequest true hits (some (some ⟨some (some v), some (some k)⟩))
      = ⟨200, .results []⟩ := by
  simp [handleGetRequest, handleGetParams, mkSearchQuery, hk,
    serviceSearchVectors, osSearchVectors]

/-- Witness for C5 with a non-empty port response that is discarded by the
raised exception. -/
theorem c5_search_failure_empty_ok_witness :
    (1 ≤ (10 : Int) ∧ (10 : Int) ≤ 100)
    ∧ handleGetRequest true [⟨"1", 95, some [("title", "Doc 1")]⟩]
        (some (some ⟨some (some [1, 2]), some (some 10)⟩))
      = ⟨200, .results []⟩ :=
  ⟨by decide,
    c5_search_failure_empty_ok [⟨"1", 95, some [("title", "Doc 1")]⟩] [1, 2] 10
      (by decide)⟩

/-- C6: the claim says `get` overlays the metadata-store mapping onto the
index record's metadata, metadata-store values winning on every colliding
key — and the spec's get step 2, the enrichment code in
`VectorService.get_vector`, and that method's own comment ("enrich with
additional metadata from PostgreSQL") all intend the same. But
`MetadataRepository.get_metadata` calls `json.loads` on a JSONB value that
psycopg2 has already parsed into a dict, so it raises `TypeError` and
returns `None` for every found row: the merge branch is dead code. At the
failing input — index store holding `"v1"` with metadata `{a: 1}`, metadata
table holding `{a: 2}` for the same id (a state reachable through a
partial-failure store), both backends healthy — the metadata row is present
yet `get_metadata` yields nothing, and `get` returns `{a: 1}` unchanged
instead of the overlay `{a: 2}`. -/
theorem c6_metadata_enrichment_dead :
    mlookup ([("v1", [("a", "2")])] : MetaStore) "v1" = some [("a", "2")]
    ∧ pgGetMetadata false [("v1", [("a", "2")])] "v1" = none
    ∧ getVector false false
        ⟨[("v1", ([1], [("a", "1")]))], [("v1", [("a", "2")])]⟩ "v1"
      = some ⟨"v1", [1], [("a", "1")]⟩
    ∧ (⟨"v1", [1], [("a", "1")]⟩ : VectorData)
        ≠ ⟨"v1", [1], dictUpdate [("a", "1")] [("a", "2")]⟩ := by
  refine ⟨rfl, rfl, rfl, ?_⟩
  decide

/-- C7: after a successful `store` with both backing stores functioning,
`get` on the record's id returns the embedding exactly and the metadata
equal to the record's: OpenSearch hands back the stored document, and the
metadata-enrichment step silently yields nothing (see the C6 finding), so
the index-store metadata — which is `r.metadata` — comes through unchanged. -/
theorem c7_store_get_roundtrip (s : DualState) (r : VectorData)
    (hnd : (r.metadata.map Prod.fst).Nodup) :
    (storeVector false false s r).1 = true
    ∧ getVector false false (storeVector false false s r).2 r.id
        = some ⟨r.id, r.vector, r.metadata⟩ := by
  refine ⟨rfl, ?_⟩
  have hidx : mlookup (setKey s.index r.id (r.vector, r.metadata)) r.id
      = some (r.vector, r.metadata) := mlookup_setKey_self _ _ _
  have hmeta : mlookup (setKey s.meta r.id r.metadata) r.id = some r.metadata :=
    mlookup_setKey_self _ _ _
  simp [storeVector, osStoreVector, pgStoreMetadata, getVector, osGetVector,
    pgGetMetadata, hidx, hmeta]

/-- Witness for C7 at the spec's end-to-end example record. -/
theorem c7_store_get_roundtrip_witness :
    (storeVector false false ⟨[], []⟩
        ⟨"v1", [1, 2, 3], [("title", "Doc")]⟩).1 = true
    ∧ getVector false false
        (storeVector false false ⟨[], []⟩
          ⟨"v1", [1, 2, 3], [("title", "Doc")]⟩).2 "v1"
      = some ⟨"v1", [1, 2, 3], [("title", "Doc")]⟩ :=
  c7_store_get_roundtrip ⟨[], []⟩ ⟨"v1", [1, 2, 3], [("title", "Doc")]⟩
    (by decide)

/-- C9: the orchestrator returns the port's hits in the port's own order —
same ids, same scores, same metadata, hit for hit — so with a port response
of at most `k` hits ordered by non-increasing score, the result list has
length at most `k` and non-increasing scores, with no re-ranking or
re-scoring. -/
theorem c9_search_order_preserved (hits : List OSHit) (q : SearchQuery)
    (hlen : (hits.length : Int) ≤ q.k)
    (hsorted : (hits.map OSHit.score).Pairwise (· ≥ ·)) :
    (serviceSearchVectors false hits q).map SearchResult.id
        = hits.map OSHit.id
    ∧ (serviceSearchVectors false hits q).map SearchResult.score
        = hits.map OSHit.score
    ∧ (serviceSearchVectors false hits q).map SearchResult.metadata
        = hits.map (fun h => h.sourceMetadata.getD [])
    ∧ ((serviceSearchVectors false hits q).length : Int) ≤ q.k
    ∧ ((serviceSearchVectors false hits q).map SearchResult.score).Pairwise
        (· ≥ ·) := by
  have he : serviceSearchVectors false hits q
      = hits.map fun h =>
          (⟨h.id, h.score, h.sourceMetadata.getD []⟩ : SearchResult) := by
    simp [serviceSearchVectors, osSearchVectors]
  have hscore : (serviceSearchVectors false hits q).map SearchResult.score
      = hits.map OSHit.score := by
    rw [he, List.map_map]; rfl
  refine ⟨?_, hscore, ?_, ?_, ?_⟩
  · rw [he, List.map_map]; rfl
  · rw [he, List.map_map]; rfl
  · rw [he, List.length_map]; exact hlen
  · rw [hscore]; exact hsorted

/-- Witness for C9: the spec's `k = 5` against three ordered hits. -/
theorem c9_search_order_preserved_witness :
    (serviceSearchVectors false
          [⟨"1", 95, some [("t", "a")]⟩, ⟨"2", 85, none⟩, ⟨"3", 85, none⟩]
          ⟨[1], 5⟩).map SearchResult.id
        = ["1", "2", "3"]
    ∧ (serviceSearchVectors false
          [⟨"1", 95, some [("t", "a")]⟩, ⟨"2", 85, none⟩, ⟨"3", 85, none⟩]
          ⟨[1], 5⟩).map SearchResult.score = [95, 85, 85]
    ∧ (serviceSearchVectors false
          [⟨"1", 95, some [("t", "a")]⟩, ⟨"2", 85, none⟩, ⟨"3", 85, none⟩]
          ⟨[1], 5⟩).map SearchResult.metadata = [[("t", "a")], [], []]
    ∧ ((serviceSearchVectors false
          [⟨"1", 95, some [("t", "a")]⟩, ⟨"2", 85, none⟩, ⟨"3", 85, none⟩]
          ⟨[1], 5⟩).length : Int) ≤ (5 : Int)
    ∧ ((serviceSearchVectors false
          [⟨"1", 95, some [("t", "a")]⟩, ⟨"2", 85, none⟩, ⟨"3", 85, none⟩]
          ⟨[1], 5⟩).map SearchResult.score).Pairwise (· ≥ ·) := by
  have h := c9_search_order_preserved
    [⟨"1", 95, some [("t", "a")]⟩, ⟨"2", 85, none⟩, ⟨"3", 85, none⟩]
    ⟨[1], 5⟩ (by decide) (by decide)
  exact ⟨h.1, h.2.1, h.2.2.1, h.2.2.2.1, h.2.2.2.2⟩

end VecDb
